import Mathlib

/-!
Shallow embedding of the gobackup backup-orchestration controller
(package database, file src/unnamed/part_000) and of the Local storage
backend (src/storage/local.go), together with theorems settling the
frozen claims about them.

Conventions of the embedding:
* Go errors are strings; a value of type Option Err is a Go error value
  (none = nil).
* A Go function that can panic is embedded with result type
  Option (Option Err): none models a runtime panic, some r models a
  normal return of the error value r.
* External collaborators (the per-backend performers db.init and
  db.perform, and helper.Exec which runs child processes) are supplied
  as an explicit environment (Oracles).
* The controller additionally produces a trace of Events recording, in
  order, every hook invocation, init call, tunnel action and perform
  call, so that ordering and "never called" claims are statable.
-/

namespace Gobackup

/-- Go error values are modelled as strings; none is the Go nil error. -/
abbrev Err := String

/-- Read-only key/value configuration store (spf13/viper instance). -/
structure Viper where
  getString : String → String
  getInt : String → Int

/-- config.SubConfig: one database/backend declaration (type tag, name,
and its own nested option set). -/
structure SubConfig where
  type : String
  name : String
  viper : Viper

/-- config.ModelConfig: a named backup job with its directories and the
ordered list of declared database targets. -/
structure ModelConfig where
  name : String
  workDir : String
  dumpPath : String
  databases : List SubConfig

/-- Simplified model of Go path.Join for two components; only used for
the dumpPath field, which no claim inspects structurally. -/
def pathJoin (a b : String) : String :=
  if a = "" then b else if b = "" then a else a ++ "/" ++ b

/-- The Base database struct (source lines 18-35), without the two
channels, which are modelled by the trace events instead. -/
structure Base where
  model : ModelConfig
  dbConfig : SubConfig
  name : String
  dumpPath : String
  sshHost : String
  sshPort : Int
  sshUser : String
  sshPassword : String
  sshKeyFile : String
  tunnelLocalPort : Int
  tunnelRemotePort : Int
  tunnelDbHost : String

/-- newBase (source lines 45-66). NOTE: the source reads every ssh_* and
tunnel_* key through the package-global viper instance
(viper.GetString / viper.GetInt), not through the per-target
dbConfig.Viper that it stores in the struct; that global instance is the
explicit gv parameter here. The MkdirP call can fail, but both branches
return the same base value (the failure is only logged), so the
directory side effect is not modelled. -/
def newBase (gv : Viper) (model : ModelConfig) (dbConfig : SubConfig) : Base :=
  { model := model
    dbConfig := dbConfig
    name := dbConfig.name
    sshHost := gv.getString "ssh_host"
    sshPort := gv.getInt "ssh_port"
    sshUser := gv.getString "ssh_user"
    sshPassword := gv.getString "ssh_password"
    sshKeyFile := gv.getString "ssh_key_file"
    tunnelDbHost := gv.getString "tunnel_db_host"
    tunnelRemotePort := gv.getInt "tunnel_remote_port"
    tunnelLocalPort := gv.getInt "tunnel_local_port"
    dumpPath := pathJoin (pathJoin model.dumpPath dbConfig.type) dbConfig.name }

/-! ## Shell-style tokenizer

Modelled from the spec: runHook tokenizes "using shell-style
quoting/escaping rules" (spec section 4.2) through the external
google/shlex library, which is not part of this repository. The model
splits on spaces, tabs, carriage returns and newlines, treats single
quotes as non-escaping quotes, double quotes as escaping quotes,
backslash as the escape character, and fails on an unterminated quote or
a trailing escape. An empty or all-whitespace input yields the empty
token list with no error, exactly as the library does. -/

/-- Space runes of the tokenizer: space, tab, carriage return, newline. -/
def isSpaceChar (c : Char) : Bool :=
  c == ' ' || c == Char.ofNat 9 || c == Char.ofNat 13 || c == Char.ofNat 10

/-- Single quote character. -/
def squoteChar : Char := Char.ofNat 39

/-- Double quote character. -/
def dquoteChar : Char := Char.ofNat 34

/-- Lexer mode of the tokenizer model. -/
inductive LexMode
  | out
  | word
  | squote
  | dquote
  | escWord
  | escDquote

/-- Builds a token from the reversed accumulated characters. -/
def tokenOf (cur : List Char) : String := String.mk cur.reverse

/-- The tokenizer loop: consumes the character list one character per
step, accumulating the current token (reversed) and the finished tokens
(reversed). -/
def shlexGo : LexMode → List Char → List Char → List String → Except Err (List String)
  | .out, [], _, acc => Except.ok acc.reverse
  | .word, [], cur, acc => Except.ok (tokenOf cur :: acc).reverse
  | .squote, [], _, _ => Except.error "EOF found when expecting closing quote"
  | .dquote, [], _, _ => Except.error "EOF found when expecting closing quote"
  | .escWord, [], _, _ => Except.error "EOF found after escape character"
  | .escDquote, [], _, _ => Except.error "EOF found after escape character"
  | .out, c :: rest, _, acc =>
    if isSpaceChar c then shlexGo .out rest [] acc
    else if c == squoteChar then shlexGo .squote rest [] acc
    else if c == dquoteChar then shlexGo .dquote rest [] acc
    else if c == '\\' then shlexGo .escWord rest [] acc
    else shlexGo .word rest [c] acc
  | .word, c :: rest, cur, acc =>
    if isSpaceChar c then shlexGo .out rest [] (tokenOf cur :: acc)
    else if c == squoteChar then shlexGo .squote rest cur acc
    else if c == dquoteChar then shlexGo .dquote rest cur acc
    else if c == '\\' then shlexGo .escWord rest cur acc
    else shlexGo .word rest (c :: cur) acc
  | .squote, c :: rest, cur, acc =>
    if c == squoteChar then shlexGo .word rest cur acc
    else shlexGo .squote rest (c :: cur) acc
  | .dquote, c :: rest, cur, acc =>
    if c == dquoteChar then shlexGo .word rest cur acc
    else if c == '\\' then shlexGo .escDquote rest cur acc
    else shlexGo .dquote rest (c :: cur) acc
  | .escWord, c :: rest, cur, acc => shlexGo .word rest (c :: cur) acc
  | .escDquote, c :: rest, cur, acc => shlexGo .dquote rest (c :: cur) acc

/-- shlex.Split: tokenize a whole string. -/
def shlexSplit (s : String) : Except Err (List String) :=
  shlexGo .out s.data [] []

/-! ## Hook runner -/

/-- strings.HasPrefix of the one-character dash marker, embedded as a
test of the first character. -/
def hasDashMark (s : String) : Bool :=
  match s.data with
  | [] => false
  | c :: _ => c == '-'

/-- strings.TrimPrefix of the dash marker: drops the leading dash when
present, returns the string unchanged otherwise. -/
def dropDash (script : String) : String :=
  if hasDashMark script then script.drop 1 else script

/-- runHook (source lines 68-96). ex is helper.Exec. Result none models
the panic the Go code hits when it indexes c[0] on an empty token list;
some none models a nil return; some (some e) models returning error e.
The error wrapping on a failed execution mirrors fmt.Errorf of the
source. -/
def runHook (ex : String → List String → Except Err String)
    (action script : String) : Option (Option Err) :=
  if script = "" then some none
  else
    let ignoreError := hasDashMark script
    let script := dropDash script
    match shlexSplit script with
    | Except.error e => if ignoreError then some none else some (some e)
    | Except.ok c =>
      match c with
      | [] => none
      | c0 :: crest =>
        match ex c0 crest with
        | Except.error e =>
          if ignoreError then some none
          else some (some ("Run " ++ action ++ " failed: " ++ e))
        | Except.ok _ => some none

/-! ## Orchestration controller -/

/-- Environment behaviour visible to the controller for one target: the
results of db.init and db.perform of the dispatched performer
(performers are external collaborators, spec section 6), and helper.Exec
used by the hook runner. -/
structure Oracles where
  initRes : Option Err
  performRes : Option Err
  exec : String → List String → Except Err String

/-- Observable controller actions, recorded in order. A hook event is
recorded at every runHook call site of the controller (even when the
script is empty and the hook body is a no-op). -/
inductive Event
  | hook (action script : String)
  | dispatchWarn
  | initEv
  | openTunnelEv
  | waitReadyEv
  | performEv
  | stopTunnelEv
deriving DecidableEq, Repr

/-- The backend type tags with an implemented performer: the seven cases
of the dispatch switch in runModel (source lines 104-122). -/
def implementedTypes : List String :=
  ["mysql", "redis", "postgresql", "mongodb", "sqlite", "mssql", "influxdb2"]

/-- The shared after-script block of runModel (source lines 173-178):
invoke the after hook; a non-nil hook error is returned, otherwise the
named return variable err (holding the perform result) stands. -/
def afterHookBlock (ex : String → List String → Except Err String)
    (afterScript : String) (tr : List Event) (err : Option Err) :
    List Event × Option (Option Err) :=
  let tr := tr ++ [Event.hook "dump after_script" afterScript]
  match runHook ex "dump after_script" afterScript with
  | none => (tr, none)
  | some (some he) => (tr, some (some he))
  | some none => (tr, some err)

/-- The post-perform policy of runModel (source lines 149-178): on a
perform failure, an empty after_script or an unset or unrecognized
on_exit returns the perform error without running the hook; on_exit
always and failure fall through to the shared after-script block, as
does a perform success. -/
def afterPolicyBlock (ex : String → List String → Except Err String)
    (afterScript onExit : String) (tr : List Event) (err : Option Err) :
    List Event × Option (Option Err) :=
  match err with
  | some pe =>
    if afterScript = "" then (tr, some (some pe))
    else if onExit ≠ "" then
      if onExit = "always" then afterHookBlock ex afterScript tr (some pe)
      else if onExit = "success" then (tr, some (some pe))
      else if onExit = "failure" then afterHookBlock ex afterScript tr (some pe)
      else (tr, some (some pe))
    else (tr, some (some pe))
  | none => afterHookBlock ex afterScript tr none

/-- runModel (source lines 99-179). The seven implemented performer
types all drive the same controller sequence; which concrete performer
is constructed only determines the behaviour of db.init and db.perform,
which the Oracles environment supplies, so the dispatch switch is
embedded as a membership test in implementedTypes. The tunnel open, the
blocking receive on the ready channel, and the stop send of
closeTunneling (source lines 140-148 and 181-184) are recorded as trace
events in the order the source performs them. -/
def runModel (gv : Viper) (o : Oracles) (model : ModelConfig) (cfg : SubConfig) :
    List Event × Option (Option Err) :=
  let base := newBase gv model cfg
  if cfg.type ∈ implementedTypes then
    let beforeScript := cfg.viper.getString "before_script"
    let t0 := [Event.hook "dump before_script" beforeScript]
    match runHook o.exec "dump before_script" beforeScript with
    | none => (t0, none)
    | some (some e) => (t0, some (some e))
    | some none =>
      let afterScript := cfg.viper.getString "after_script"
      let onExit := cfg.viper.getString "on_exit"
      match o.initRes with
      | some e => (t0 ++ [Event.initEv], some (some e))
      | none =>
        let t1 := t0 ++ [Event.initEv]
        let t2 := if base.sshHost ≠ "" then
            t1 ++ [Event.openTunnelEv, Event.waitReadyEv]
          else t1
        let t3 := t2 ++ [Event.performEv]
        let t4 := if base.sshHost ≠ "" then t3 ++ [Event.stopTunnelEv] else t3
        afterPolicyBlock o.exec afterScript onExit t4 o.performRes
  else
    ([Event.dispatchWarn], some none)

/-- The loop of Run (source lines 241-254), instrumented with the list
of target names actually dispatched to runModel, in order. Each target
gets its own performer/exec environment through ofam. A panic inside
runModel propagates (outcome none). -/
def runList (gv : Viper) (ofam : SubConfig → Oracles) (model : ModelConfig) :
    List SubConfig → List String × Option (Option Err)
  | [] => ([], some none)
  | cfg :: rest =>
    match (runModel gv (ofam cfg) model cfg).2 with
    | none => ([cfg.name], none)
    | some (some e) => ([cfg.name], some (some e))
    | some none =>
      let r := runList gv ofam model rest
      (cfg.name :: r.1, r.2)

/-- Run (source lines 241-254): iterate the declared databases of the
model in order, fail fast. The empty-list guard of the source returns
nil, which coincides with the nil case of the loop. -/
def Run (gv : Viper) (ofam : SubConfig → Oracles) (model : ModelConfig) :
    List String × Option (Option Err) :=
  runList gv ofam model model.databases

/-! ## Tunnel ready-channel operations

The single-slot channel cTunnelStart is modelled by the number of queued
signals. -/

/-- The Started branch of the connection-state callback (source line
214): publish one ready signal. -/
def startedCallbackPublish (cTunnelStart : Nat) : Nat := cTunnelStart + 1

/-- The failure branch of the connect task (source lines 227-234): when
sshTun.Start returns an error, the task logs it and then receives from
cTunnelStart only if its queue length is positive; it never sends. -/
def connectFailureBranch (cTunnelStart : Nat) : Nat :=
  if 0 < cTunnelStart then cTunnelStart - 1 else cTunnelStart

/-! ## Local storage backend -/

/-- The download method of the Local storage backend
(src/storage/local.go lines 94-96): the receiver state and the fileKey
argument are ignored and a constant failure is returned. -/
def localDownload (_fileKey : String) : String × Option Err :=
  ("", some "Local is not support download")

/-! ## Specification-side after-script policy table

These two definitions are transcribed from the wording of the policy
table in spec section 4.4 (not from the code), to be compared with the
controller embedding above. -/

/-- Whether the table says the after hook runs, given whether perform
failed, the after_script content and the on_exit value: on success
always; on failure only for a non-empty after_script with on_exit
always or failure. -/
def specTableHookRuns (performFailed : Bool) (afterScript onExit : String) : Bool :=
  if performFailed then
    if afterScript = "" then false
    else if onExit = "always" then true
    else if onExit = "failure" then true
    else false
  else true

/-- The error the table says is returned, given the perform result, the
config, and the result of the hook when it runs: on success the hook
result; on failure, when the hook runs, the hook error else the perform
error, and otherwise the perform error. -/
def specTableResult (performErr : Option Err) (afterScript onExit : String)
    (hookRes : Option Err) : Option Err :=
  match performErr with
  | none => hookRes
  | some pe =>
    if specTableHookRuns true afterScript onExit then
      match hookRes with
      | some he => some he
      | none => some pe
    else some pe

/-! ## Concrete fixtures used by counterexamples and witnesses -/

deriving instance DecidableEq for Except

/-- helper.Exec stub whose every command succeeds with empty output. -/
def execOk : String → List String → Except Err String := fun _ _ => Except.ok ""

/-- helper.Exec stub whose every command fails with a non-zero exit. -/
def execFail : String → List String → Except Err String :=
  fun _ _ => Except.error "exit status 1"

/-- A viper instance with every key unset. -/
def viperBlank : Viper := { getString := fun _ => "", getInt := fun _ => 0 }

/-- A per-target viper with only after_script set, to the ignore-error
script -notify.sh. -/
def viperAfterIgnore : Viper :=
  { getString := fun k => if k = "after_script" then "-notify.sh" else ""
    getInt := fun _ => 0 }

/-- A per-target viper with only before_script set, to a failing
command. -/
def viperBeforeFail : Viper :=
  { getString := fun k => if k = "before_script" then "exit 1" else ""
    getInt := fun _ => 0 }

/-- Global viper with no SSH host configured. -/
def gvBlank : Viper := viperBlank

/-- Global viper declaring the SSH host bastion. -/
def gvSsh : Viper :=
  { getString := fun k => if k = "ssh_host" then "bastion" else ""
    getInt := fun _ => 0 }

/-- Global viper resolving every string key to global.example. -/
def gvGlobal : Viper := { getString := fun _ => "global.example", getInt := fun _ => 0 }

/-- A per-target viper declaring ssh_host db-a.internal. -/
def viperHostA : Viper :=
  { getString := fun k => if k = "ssh_host" then "db-a.internal" else ""
    getInt := fun _ => 0 }

/-- A per-target viper declaring ssh_host db-b.internal. -/
def viperHostB : Viper :=
  { getString := fun k => if k = "ssh_host" then "db-b.internal" else ""
    getInt := fun _ => 0 }

/-- A mysql target whose after_script is the ignore-error notify
script. -/
def cfgMysql : SubConfig := { type := "mysql", name := "db1", viper := viperAfterIgnore }

/-- A redis target with a failing before_script. -/
def cfgRedisBeforeFail : SubConfig :=
  { type := "redis", name := "r1", viper := viperBeforeFail }

/-- A target of the unimplemented type clickhouse. -/
def cfgClickhouse : SubConfig := { type := "clickhouse", name := "c1", viper := viperBlank }

/-- Target a of the fail-fast scenario. -/
def cfgA : SubConfig := { type := "mysql", name := "a", viper := viperBlank }

/-- Target b of the fail-fast scenario: its perform fails. -/
def cfgB : SubConfig := { type := "redis", name := "b", viper := viperBlank }

/-- Target c of the fail-fast scenario: never reached. -/
def cfgC : SubConfig := { type := "postgresql", name := "c", viper := viperBlank }

/-- Target with per-target viper viperHostA. -/
def cfgHostA : SubConfig := { type := "mysql", name := "a", viper := viperHostA }

/-- Target with per-target viper viperHostB. -/
def cfgHostB : SubConfig := { type := "mysql", name := "b", viper := viperHostB }

/-- A one-target model around cfgMysql. -/
def modelOne : ModelConfig :=
  { name := "m", workDir := "/w", dumpPath := "/d", databases := [cfgMysql] }

/-- The three-target model of the fail-fast scenario. -/
def modelABC : ModelConfig :=
  { name := "m3", workDir := "/w", dumpPath := "/d", databases := [cfgA, cfgB, cfgC] }

/-- The two-target model of the per-target-lookup counterexample. -/
def modelHosts : ModelConfig :=
  { name := "mh", workDir := "/w", dumpPath := "/d", databases := [cfgHostA, cfgHostB] }

/-- Environment where init and perform succeed but every hook command
fails (the notify script exits non-zero). -/
def oraclesHookFail : Oracles := { initRes := none, performRes := none, exec := execFail }

/-- Environment where everything succeeds. -/
def oraclesOk : Oracles := { initRes := none, performRes := none, exec := execOk }

/-- Environment family for the fail-fast scenario: perform fails with
boom exactly on target b. -/
def ofamABC : SubConfig → Oracles := fun cfg =>
  if cfg.name = "b" then { initRes := none, performRes := some "boom", exec := execOk }
  else { initRes := none, performRes := none, exec := execOk }

/-- Constant environment family reusing oraclesHookFail. -/
def ofamHookFail : SubConfig → Oracles := fun _ => oraclesHookFail

/-! ## Helper lemmas -/

/-- The trace of the post-perform policy block: the after-hook event is
appended exactly when the spec table says the hook runs, and nothing
else is appended. -/
theorem afterPolicyBlock_trace (ex : String → List String → Except Err String)
    (afterScript onExit : String) (tr : List Event) (err : Option Err) :
    (afterPolicyBlock ex afterScript onExit tr err).1 =
      if specTableHookRuns err.isSome afterScript onExit = true then
        tr ++ [Event.hook "dump after_script" afterScript]
      else tr := by
  have hblock : ∀ e, (afterHookBlock ex afterScript tr e).1 =
      tr ++ [Event.hook "dump after_script" afterScript] := by
    intro e
    unfold afterHookBlock
    rcases hr : runHook ex "dump after_script" afterScript with _ | hres
    · rfl
    · rcases hres with _ | he <;> rfl
  rcases err with _ | pe
  · simp [afterPolicyBlock, specTableHookRuns, hblock]
  · by_cases ha : afterScript = ""
    · simp [afterPolicyBlock, specTableHookRuns, ha]
    · by_cases he : onExit = ""
      · simp [afterPolicyBlock, specTableHookRuns, ha, he]
      · by_cases h1 : onExit = "always"
        · simp [afterPolicyBlock, specTableHookRuns, ha, he, h1, hblock]
        · by_cases h2 : onExit = "success"
          · simp [afterPolicyBlock, specTableHookRuns, ha, he, h1, h2]
          · by_cases h3 : onExit = "failure" <;>
              simp [afterPolicyBlock, specTableHookRuns, ha, he, h1, h2, h3, hblock]

/-- The returned error of the post-perform policy block equals the entry
of the spec table, provided the after hook returns normally with result
hookRes. -/
theorem afterPolicyBlock_result (ex : String → List String → Except Err String)
    (afterScript onExit : String) (tr : List Event) (err : Option Err) (hookRes : Option Err)
    (hafter : runHook ex "dump after_script" afterScript = some hookRes) :
    (afterPolicyBlock ex afterScript onExit tr err).2 =
      some (specTableResult err afterScript onExit hookRes) := by
  have hblock : ∀ e, (afterHookBlock ex afterScript tr e).2 =
      some (match hookRes with | some he => some he | none => e) := by
    intro e
    unfold afterHookBlock
    rcases hookRes with _ | he <;> simp [hafter]
  rcases err with _ | pe
  · rw [show afterPolicyBlock ex afterScript onExit tr none
        = afterHookBlock ex afterScript tr none from rfl, hblock]
    rcases hookRes with _ | he <;> simp [specTableResult]
  · by_cases ha : afterScript = ""
    · simp [afterPolicyBlock, specTableResult, specTableHookRuns, ha]
    · by_cases he : onExit = ""
      · simp [afterPolicyBlock, specTableResult, specTableHookRuns, ha, he]
      · by_cases h1 : onExit = "always"
        · simp only [afterPolicyBlock, ha, he, h1, if_true, if_false, ite_true, ite_false,
            if_neg, hblock]
          rcases hookRes with _ | hh <;>
            simp [ha, he, h1, hblock, specTableResult, specTableHookRuns]
        · by_cases h2 : onExit = "success"
          · simp [afterPolicyBlock, specTableResult, specTableHookRuns, ha, he, h1, h2]
          · by_cases h3 : onExit = "failure"
            · rcases hookRes with _ | hh <;>
                simp [afterPolicyBlock, specTableResult, specTableHookRuns,
                  ha, he, h1, h2, h3, hblock]
            · simp [afterPolicyBlock, specTableResult, specTableHookRuns,
                ha, he, h1, h2, h3, hblock]

/-- Under an implemented type, a successful before hook and a successful
init, runModel reduces to the post-perform policy block applied to the
core trace, whose shape depends only on whether the resolved SSH host is
empty. -/
theorem runModel_reduce (gv : Viper) (o : Oracles) (model : ModelConfig) (cfg : SubConfig)
    (himpl : cfg.type ∈ implementedTypes)
    (hb : runHook o.exec "dump before_script" (cfg.viper.getString "before_script") = some none)
    (hinit : o.initRes = none) :
    runModel gv o model cfg =
      afterPolicyBlock o.exec (cfg.viper.getString "after_script")
        (cfg.viper.getString "on_exit")
        (if (newBase gv model cfg).sshHost = "" then
          [Event.hook "dump before_script" (cfg.viper.getString "before_script"),
           Event.initEv, Event.performEv]
         else
          [Event.hook "dump before_script" (cfg.viper.getString "before_script"),
           Event.initEv, Event.openTunnelEv, Event.waitReadyEv, Event.performEv,
           Event.stopTunnelEv])
        o.performRes := by
  by_cases hssh : (newBase gv model cfg).sshHost = "" <;>
    simp [runModel, himpl, hb, hinit, hssh]

/-- When every target of a list succeeds, the loop dispatches all of
them in order and returns nil. -/
theorem runList_all_ok (gv : Viper) (ofam : SubConfig → Oracles) (model : ModelConfig) :
    ∀ l : List SubConfig,
      (∀ cfg ∈ l, (runModel gv (ofam cfg) model cfg).2 = some none) →
      runList gv ofam model l = (l.map SubConfig.name, some none)
  | [], _ => by simp [runList]
  | cfg :: rest, h => by
    have hc := h cfg (List.mem_cons_self cfg rest)
    have hr := runList_all_ok gv ofam model rest (fun c hm => h c (List.mem_cons_of_mem _ hm))
    simp [runList, hc, hr]

/-- When every target of a prefix succeeds and the next target fails,
the loop dispatches exactly the prefix and that target, and returns its
error. -/
theorem runList_fail_at (gv : Viper) (ofam : SubConfig → Oracles) (model : ModelConfig) :
    ∀ (pre : List SubConfig) (bad : SubConfig) (post : List SubConfig) (e : Err),
      (∀ cfg ∈ pre, (runModel gv (ofam cfg) model cfg).2 = some none) →
      (runModel gv (ofam bad) model bad).2 = some (some e) →
      runList gv ofam model (pre ++ bad :: post) =
        (pre.map SubConfig.name ++ [bad.name], some (some e))
  | [], bad, post, e, _, hbad => by simp [runList, hbad]
  | cfg :: pre, bad, post, e, hpre, hbad => by
    have hc := hpre cfg (List.mem_cons_self cfg pre)
    have hr := runList_fail_at gv ofam model pre bad post e
      (fun c hm => hpre c (List.mem_cons_of_mem _ hm)) hbad
    simp [runList, hc, hr]

/-- A script with the dash marker is non-empty. -/
theorem hasDashMark_ne_empty (script : String) (h : hasDashMark script = true) :
    ¬ script = "" := by
  intro he
  rw [he] at h
  exact absurd h (by decide)

/-! ## Claim theorems -/

/-- C1: for every implemented target whose before hook and init succeed
and whose after hook, when invoked, returns hookRes, runModel runs the
after-script hook exactly when the policy table of spec section 4.4
says so, and returns exactly the error the table specifies: on perform
success the hook always runs and the result is the hook result; on
perform failure the hook runs only when after_script is non-empty and
on_exit is always or failure, in which case the result is the hook error
if any, else the perform error, and in every other failure combination
the hook is skipped and the perform error is returned. -/
theorem runModel_after_script_policy_table (gv : Viper) (o : Oracles)
    (model : ModelConfig) (cfg : SubConfig) (hookRes : Option Err)
    (himpl : cfg.type ∈ implementedTypes)
    (hb : runHook o.exec "dump before_script" (cfg.viper.getString "before_script") = some none)
    (hinit : o.initRes = none)
    (hafter : runHook o.exec "dump after_script" (cfg.viper.getString "after_script")
        = some hookRes) :
    (runModel gv o model cfg).2 =
      some (specTableResult o.performRes (cfg.viper.getString "after_script")
        (cfg.viper.getString "on_exit") hookRes)
    ∧ (Event.hook "dump after_script" (cfg.viper.getString "after_script")
        ∈ (runModel gv o model cfg).1
      ↔ specTableHookRuns (o.performRes).isSome (cfg.viper.getString "after_script")
          (cfg.viper.getString "on_exit") = true) := by
  rw [runModel_reduce gv o model cfg himpl hb hinit]
  constructor
  · exact afterPolicyBlock_result o.exec _ _ _ o.performRes hookRes hafter
  · rw [afterPolicyBlock_trace]
    by_cases hrun : specTableHookRuns (o.performRes).isSome (cfg.viper.getString "after_script")
        (cfg.viper.getString "on_exit") = true
    · simp [hrun]
    · by_cases hssh : (newBase gv model cfg).sshHost = "" <;> simp [hrun, hssh]

/-- C2: for every target whose type tag is not an implemented backend
type, runModel returns nil after only a warning: the trace is exactly
the warning event, so neither init nor perform nor any hook is invoked,
and the batch loop proceeds with the remaining targets. -/
theorem runModel_unknown_type_soft_skip (gv : Viper) (o : Oracles)
    (ofam : SubConfig → Oracles) (model : ModelConfig) (cfg : SubConfig)
    (rest : List SubConfig)
    (h : cfg.type ∉ implementedTypes) :
    runModel gv o model cfg = ([Event.dispatchWarn], some none)
    ∧ Event.initEv ∉ (runModel gv o model cfg).1
    ∧ Event.performEv ∉ (runModel gv o model cfg).1
    ∧ Event.openTunnelEv ∉ (runModel gv o model cfg).1
    ∧ (∀ a s, Event.hook a s ∉ (runModel gv o model cfg).1)
    ∧ runList gv ofam model (cfg :: rest) =
        (cfg.name :: (runList gv ofam model rest).1, (runList gv ofam model rest).2) := by
  have h1 : runModel gv o model cfg = ([Event.dispatchWarn], some none) := by
    simp [runModel, h]
  have h2 : runModel gv (ofam cfg) model cfg = ([Event.dispatchWarn], some none) := by
    simp [runModel, h]
  refine ⟨h1, ?_, ?_, ?_, ?_, ?_⟩
  · rw [h1]; simp
  · rw [h1]; simp
  · rw [h1]; simp
  · intro a s; rw [h1]; simp
  · simp [runList, h2]

/-- C3: Run dispatches the declared targets in declaration order and
returns the first non-nil error without dispatching any later target;
when every target returns nil (in particular when the list is empty) it
dispatches them all and returns nil. The first component of Run records
the names of the targets actually passed to runModel, in order. -/
theorem Run_fail_fast (gv : Viper) (ofam : SubConfig → Oracles) (model : ModelConfig) :
    (∀ (pre : List SubConfig) (bad : SubConfig) (post : List SubConfig) (e : Err),
      model.databases = pre ++ bad :: post →
      (∀ cfg ∈ pre, (runModel gv (ofam cfg) model cfg).2 = some none) →
      (runModel gv (ofam bad) model bad).2 = some (some e) →
      Run gv ofam model = (pre.map SubConfig.name ++ [bad.name], some (some e)))
    ∧ ((∀ cfg ∈ model.databases, (runModel gv (ofam cfg) model cfg).2 = some none) →
      Run gv ofam model = (model.databases.map SubConfig.name, some none)) := by
  constructor
  · intro pre bad post e hdb hpre hbad
    rw [Run, hdb]
    exact runList_fail_at gv ofam model pre bad post e hpre hbad
  · intro h
    rw [Run]
    exact runList_all_ok gv ofam model model.databases h

/-- C7: for every implemented target whose before_script hook fails with
error e, runModel returns exactly e, and the trace stops at the
before-hook event: init is never called, no tunnel is opened, perform is
never called, and no after-script activity happens. -/
theorem runModel_before_script_failure_aborts (gv : Viper) (o : Oracles)
    (model : ModelConfig) (cfg : SubConfig) (e : Err)
    (himpl : cfg.type ∈ implementedTypes)
    (hb : runHook o.exec "dump before_script" (cfg.viper.getString "before_script")
        = some (some e)) :
    runModel gv o model cfg =
      ([Event.hook "dump before_script" (cfg.viper.getString "before_script")], some (some e))
    ∧ Event.initEv ∉ (runModel gv o model cfg).1
    ∧ Event.openTunnelEv ∉ (runModel gv o model cfg).1
    ∧ Event.waitReadyEv ∉ (runModel gv o model cfg).1
    ∧ Event.performEv ∉ (runModel gv o model cfg).1
    ∧ Event.stopTunnelEv ∉ (runModel gv o model cfg).1
    ∧ (∀ s, Event.hook "dump after_script" s ∉ (runModel gv o model cfg).1) := by
  have h1 : runModel gv o model cfg =
      ([Event.hook "dump before_script" (cfg.viper.getString "before_script")],
       some (some e)) := by
    simp [runModel, himpl, hb]
  refine ⟨h1, ?_, ?_, ?_, ?_, ?_, ?_⟩ <;> rw [h1] <;> simp

/-- C4 counterexample: two targets whose own configurations declare
different ssh_host values get contexts with the same sshHost field
(both resolved from the global viper), so the claimed per-target lookup
does not happen; the resolved field does not even match the own
configuration of the target. -/
theorem newBase_per_target_lookup_cex :
    cfgHostA.viper.getString "ssh_host" ≠ cfgHostB.viper.getString "ssh_host"
    ∧ (newBase gvGlobal modelHosts cfgHostA).sshHost
        = (newBase gvGlobal modelHosts cfgHostB).sshHost
    ∧ (newBase gvGlobal modelHosts cfgHostA).sshHost
        ≠ cfgHostA.viper.getString "ssh_host" := by
  refine ⟨by decide, rfl, by decide⟩

/-- C4 amended: newBase resolves every SSH and tunnel parameter by a
key/value lookup on the process-global viper configuration, not on the
own configuration of the target, so any two targets built against the
same global configuration receive identical SSH and tunnel fields. -/
theorem newBase_ssh_params_from_global_viper (gv : Viper) (model : ModelConfig)
    (cfg cfg2 : SubConfig) :
    (newBase gv model cfg).sshHost = gv.getString "ssh_host"
    ∧ (newBase gv model cfg).sshPort = gv.getInt "ssh_port"
    ∧ (newBase gv model cfg).sshUser = gv.getString "ssh_user"
    ∧ (newBase gv model cfg).sshPassword = gv.getString "ssh_password"
    ∧ (newBase gv model cfg).sshKeyFile = gv.getString "ssh_key_file"
    ∧ (newBase gv model cfg).tunnelDbHost = gv.getString "tunnel_db_host"
    ∧ (newBase gv model cfg).tunnelRemotePort = gv.getInt "tunnel_remote_port"
    ∧ (newBase gv model cfg).tunnelLocalPort = gv.getInt "tunnel_local_port"
    ∧ (newBase gv model cfg).sshHost = (newBase gv model cfg2).sshHost :=
  ⟨rfl, rfl, rfl, rfl, rfl, rfl, rfl, rfl, rfl⟩

/-- C5: for every implemented target whose before hook and init succeed,
when the resolved SSH host is non-empty the controller opens the tunnel
and waits on the ready signal before invoking perform, and publishes the
stop signal exactly once, immediately after perform returns (whatever
its outcome) and before any after-script activity; when the resolved SSH
host is empty, no tunnel event occurs at all. -/
theorem runModel_tunnel_lifecycle (gv : Viper) (o : Oracles) (model : ModelConfig)
    (cfg : SubConfig)
    (himpl : cfg.type ∈ implementedTypes)
    (hb : runHook o.exec "dump before_script" (cfg.viper.getString "before_script") = some none)
    (hinit : o.initRes = none) :
    ((newBase gv model cfg).sshHost ≠ "" →
      ∃ tail, (runModel gv o model cfg).1 =
          Event.hook "dump before_script" (cfg.viper.getString "before_script")
            :: Event.initEv :: Event.openTunnelEv :: Event.waitReadyEv
            :: Event.performEv :: Event.stopTunnelEv :: tail
        ∧ Event.openTunnelEv ∉ tail ∧ Event.waitReadyEv ∉ tail
        ∧ Event.performEv ∉ tail ∧ Event.stopTunnelEv ∉ tail)
    ∧ ((newBase gv model cfg).sshHost = "" →
        Event.openTunnelEv ∉ (runModel gv o model cfg).1
        ∧ Event.waitReadyEv ∉ (runModel gv o model cfg).1
        ∧ Event.stopTunnelEv ∉ (runModel gv o model cfg).1) := by
  rw [runModel_reduce gv o model cfg himpl hb hinit]
  constructor
  · intro hssh
    rw [afterPolicyBlock_trace]
    by_cases hrun : specTableHookRuns (o.performRes).isSome (cfg.viper.getString "after_script")
        (cfg.viper.getString "on_exit") = true
    · refine ⟨[Event.hook "dump after_script" (cfg.viper.getString "after_script")], ?_⟩
      simp [hrun, hssh]
    · refine ⟨[], ?_⟩
      simp [hrun, hssh]
  · intro hssh
    rw [afterPolicyBlock_trace]
    by_cases hrun : specTableHookRuns (o.performRes).isSome (cfg.viper.getString "after_script")
        (cfg.viper.getString "on_exit") = true <;>
      simp [hrun, hssh]

/-- C6 counterexample: the script consisting only of the dash marker is
prefixed with the dash, yet runHook does not return nil on it: the
stripped script tokenizes to the empty token list and the code indexes
its first element, which is a panic (embedded as the none result). -/
theorem runHook_dash_returns_nil_cex :
    runHook execOk "dump after_script" "-" = none
    ∧ ¬ runHook execOk "dump after_script" "-" = some none := by
  exact ⟨by decide, by decide⟩

/-- C6 amended: for every script prefixed with the dash, except those
whose stripped content tokenizes to the empty token list (where runHook
panics instead of returning), runHook returns nil regardless of whether
tokenization fails or the executed command exits non-zero; the failure
is logged and swallowed, never propagated. -/
theorem runHook_dash_swallows_failures (ex : String → List String → Except Err String)
    (action script : String)
    (hpre : hasDashMark script = true)
    (hne : shlexSplit (dropDash script) ≠ Except.ok []) :
    runHook ex action script = some none := by
  have h0 : ¬ script = "" := hasDashMark_ne_empty script hpre
  rw [runHook, if_neg h0]
  rcases hs : shlexSplit (dropDash script) with e | c
  · simp [hs, hpre]
  · rcases c with _ | ⟨c0, crest⟩
    · exact absurd hs hne
    · rcases hx : ex c0 crest with e | out <;> simp [hs, hx, hpre]

/-- C8: the failure branch of the tunnel connect task never publishes a
ready signal: the channel occupancy never grows, an empty channel stays
empty (so the controller wait is never satisfied by a failed connect),
a queued signal is drained, and the branch never acts like the Started
callback, which publishes. -/
theorem connect_failure_never_publishes_ready (n : Nat) :
    connectFailureBranch n ≤ n
    ∧ (n = 0 → connectFailureBranch n = 0)
    ∧ (0 < n → connectFailureBranch n = n - 1)
    ∧ connectFailureBranch n ≠ startedCallbackPublish n := by
  unfold connectFailureBranch startedCallbackPublish
  split_ifs with h <;> omega

/-- C9: for every fileKey, the download operation of the Local storage
backend returns the empty local path together with the non-nil
unsupported-operation error; it never succeeds and never silently
no-ops. -/
theorem localDownload_always_unsupported (fileKey : String) :
    localDownload fileKey = ("", some "Local is not support download")
    ∧ (localDownload fileKey).1 = ""
    ∧ (localDownload fileKey).2 ≠ none := by
  refine ⟨rfl, rfl, ?_⟩
  simp [localDownload]

/-- C10: for every non-empty script whose content after stripping the
optional dash prefix tokenizes to the empty token list, runHook reaches
the unguarded first-element access on that empty list, so in this total
embedding it hits the out-of-bounds branch and does not return normally
(result none, modelling the Go panic). -/
theorem runHook_empty_token_list_panics (ex : String → List String → Except Err String)
    (action script : String)
    (h0 : ¬ script = "")
    (hempty : shlexSplit (dropDash script) = Except.ok []) :
    runHook ex action script = none := by
  rw [runHook, if_neg h0]
  simp [hempty]

/-! ## Witnesses -/

/-- C1 witness: the scenario of spec section 8: a mysql target, empty
before_script, after_script -notify.sh (ignore-error), on_exit unset,
perform succeeds, the notify command exits non-zero: the hook is
executed and the overall result is nil. -/
theorem runModel_after_script_policy_table_witness :
    (runModel gvBlank oraclesHookFail modelOne cfgMysql).2 =
      some (specTableResult oraclesHookFail.performRes
        (cfgMysql.viper.getString "after_script")
        (cfgMysql.viper.getString "on_exit") none)
    ∧ (Event.hook "dump after_script" (cfgMysql.viper.getString "after_script")
        ∈ (runModel gvBlank oraclesHookFail modelOne cfgMysql).1
      ↔ specTableHookRuns (oraclesHookFail.performRes).isSome
          (cfgMysql.viper.getString "after_script")
          (cfgMysql.viper.getString "on_exit") = true) :=
  runModel_after_script_policy_table gvBlank oraclesHookFail modelOne cfgMysql none
    (by decide) (by decide) rfl (by decide)

/-- C2 witness: the unknown type clickhouse is soft-skipped and the
batch loop continues with the next declared target. -/
theorem runModel_unknown_type_soft_skip_witness :
    runModel gvBlank oraclesOk modelOne cfgClickhouse = ([Event.dispatchWarn], some none)
    ∧ runList gvBlank ofamHookFail modelOne (cfgClickhouse :: [cfgMysql]) =
        (cfgClickhouse.name :: (runList gvBlank ofamHookFail modelOne [cfgMysql]).1,
         (runList gvBlank ofamHookFail modelOne [cfgMysql]).2) :=
  ⟨(runModel_unknown_type_soft_skip gvBlank oraclesOk ofamHookFail modelOne cfgClickhouse
      [cfgMysql] (by decide)).1,
   (runModel_unknown_type_soft_skip gvBlank oraclesOk ofamHookFail modelOne cfgClickhouse
      [cfgMysql] (by decide)).2.2.2.2.2⟩

/-- C3 witness: over targets a, b, c where perform fails on b with boom,
a completes, the boom error is returned, and c is never dispatched. -/
theorem Run_fail_fast_witness :
    Run gvBlank ofamABC modelABC = (["a", "b"], some (some "boom")) :=
  (Run_fail_fast gvBlank ofamABC modelABC).1 [cfgA] cfgB [cfgC] "boom"
    rfl (by decide) (by decide)

/-- C4 witness: the amended statement instantiated at the fixture
configurations. -/
theorem newBase_ssh_params_from_global_viper_witness :
    (newBase gvGlobal modelHosts cfgHostA).sshHost = gvGlobal.getString "ssh_host"
    ∧ (newBase gvGlobal modelHosts cfgHostA).sshPort = gvGlobal.getInt "ssh_port"
    ∧ (newBase gvGlobal modelHosts cfgHostA).sshUser = gvGlobal.getString "ssh_user"
    ∧ (newBase gvGlobal modelHosts cfgHostA).sshPassword = gvGlobal.getString "ssh_password"
    ∧ (newBase gvGlobal modelHosts cfgHostA).sshKeyFile = gvGlobal.getString "ssh_key_file"
    ∧ (newBase gvGlobal modelHosts cfgHostA).tunnelDbHost = gvGlobal.getString "tunnel_db_host"
    ∧ (newBase gvGlobal modelHosts cfgHostA).tunnelRemotePort
        = gvGlobal.getInt "tunnel_remote_port"
    ∧ (newBase gvGlobal modelHosts cfgHostA).tunnelLocalPort
        = gvGlobal.getInt "tunnel_local_port"
    ∧ (newBase gvGlobal modelHosts cfgHostA).sshHost
        = (newBase gvGlobal modelHosts cfgHostB).sshHost :=
  newBase_ssh_params_from_global_viper gvGlobal modelHosts cfgHostA cfgHostB

/-- C5 witness: with the global SSH host bastion configured, the trace
of a successful mysql run is exactly before-hook, init, open tunnel,
wait ready, perform, stop tunnel, then after-script activity only. -/
theorem runModel_tunnel_lifecycle_witness :
    ∃ tail, (runModel gvSsh oraclesHookFail modelOne cfgMysql).1 =
        Event.hook "dump before_script" (cfgMysql.viper.getString "before_script")
          :: Event.initEv :: Event.openTunnelEv :: Event.waitReadyEv
          :: Event.performEv :: Event.stopTunnelEv :: tail
      ∧ Event.openTunnelEv ∉ tail ∧ Event.waitReadyEv ∉ tail
      ∧ Event.performEv ∉ tail ∧ Event.stopTunnelEv ∉ tail :=
  (runModel_tunnel_lifecycle gvSsh oraclesHookFail modelOne cfgMysql
    (by decide) (by decide) rfl).1 (by decide)

/-- C6 witness: the amended statement at the ignore-error script
-notify.sh with a failing command: the failure is swallowed. -/
theorem runHook_dash_swallows_failures_witness :
    runHook execFail "dump after_script" "-notify.sh" = some none :=
  runHook_dash_swallows_failures execFail "dump after_script" "-notify.sh"
    (by decide) (by decide)

/-- C7 witness: the scenario of spec section 8: a redis target with
before_script exit 1: perform is never reached and the returned error is
the before-script failure. -/
theorem runModel_before_script_failure_aborts_witness :
    runModel gvBlank oraclesHookFail modelOne cfgRedisBeforeFail =
      ([Event.hook "dump before_script" (cfgRedisBeforeFail.viper.getString "before_script")],
       some (some "Run dump before_script failed: exit status 1")) :=
  (runModel_before_script_failure_aborts gvBlank oraclesHookFail modelOne cfgRedisBeforeFail
    "Run dump before_script failed: exit status 1" (by decide) (by decide)).1

/-- C8 witness: instantiations of the connect-failure properties at
occupancies zero and one. -/
theorem connect_failure_never_publishes_ready_witness :
    connectFailureBranch 0 = 0 ∧ connectFailureBranch 1 = 1 - 1 :=
  ⟨(connect_failure_never_publishes_ready 0).2.1 rfl,
   (connect_failure_never_publishes_ready 1).2.2.1 (by decide)⟩

/-- C9 witness: the download rejection at a concrete file key. -/
theorem localDownload_always_unsupported_witness :
    localDownload "2024.01.01.tar.gz" = ("", some "Local is not support download")
    ∧ (localDownload "2024.01.01.tar.gz").1 = ""
    ∧ (localDownload "2024.01.01.tar.gz").2 ≠ none :=
  localDownload_always_unsupported "2024.01.01.tar.gz"

/-- C10 witness: the bare dash script panics inside runHook. -/
theorem runHook_empty_token_list_panics_witness :
    runHook execFail "dump before_script" "-" = none :=
  runHook_empty_token_list_panics execFail "dump before_script" "-"
    (by decide) (by decide)

end Gobackup
